import Mathlib

/-!
Verification of the rustup bootstrap module of the rls-vscode extension.

The embedding models src/src/rustup.ts. Each TypeScript function becomes a
Lean function from an explicit external world (command runner results and
user prompt answers) to a result paired with a trace of observable events
(commands executed, message boxes shown, spinner starts and stops, and the
final child-process spawn). Thrown JavaScript errors become an Except error
component; rejected promises propagate through sequential composition the
way .then chaining and await do in the source.
-/

namespace RlsVscode

/-- Captured output of an external command, as resolved by execChildProcess. -/
structure CmdOutput where
  stdout : String
  stderr : String
  deriving DecidableEq, Repr

/-- Opaque failure of the command runner (nonzero exit or spawn failure). -/
structure ExecError where
  message : String
  deriving DecidableEq, Repr

/-- A JavaScript error value thrown by the module: a rethrown command-runner
error, the bare new Error() thrown on declined consent, or an Error carrying
a message, as built in installRls. -/
inductive JsError where
  | ofExec : ExecError → JsError
  | generic : JsError
  | msg : String → JsError
  deriving DecidableEq, Repr

/-- Process environment map handed to child_process.spawn. -/
abbrev Env := List (String × String)

/-- Observable events of one run: external commands executed, message boxes,
spinner transitions, and the spawn of the dependent server process. -/
inductive Event where
  | execCmd : String → Event
  | showInfo : String → Event
  | showError : String → Event
  | spinnerStart : String → Event
  | spinnerStop : String → Event
  | spawned : String → List String → Env → Event
  deriving DecidableEq, Repr

/-- The external world of one run: what execChildProcess returns for each
command line, and what window.showInformationMessage resolves to for each
message (none models the undefined result of a dismissed prompt). -/
structure World where
  exec : String → Except ExecError CmdOutput
  prompt : String → Option String

/-- The handle returned by child_process.spawn. -/
structure Spawned where
  cmd : String
  args : List String
  env : Env
  deriving DecidableEq, Repr

/-- JavaScript line terminators: the characters at which the m flag makes
the anchors of a regular expression match, and which the dot never matches. -/
def isLineTerm (c : Char) : Bool :=
  c = '\n' || c = '\r' || c = '\u2028' || c = '\u2029'

/-- Split a character list into the lines seen by a multiline regular
expression: boundaries at every line terminator. -/
def splitLines : List Char → List (List Char)
  | [] => [[]]
  | c :: cs =>
    if isLineTerm c then
      [] :: splitLines cs
    else
      match splitLines cs with
      | [] => [[c]]
      | l :: ls => (c :: l) :: ls

/-- Whether needle occurs as a contiguous substring of the haystack; this is
String.prototype.indexOf(needle) > -1 of JavaScript. -/
def hasSubstr (needle : List Char) : List Char → Bool
  | [] => needle.isEmpty
  | c :: rest => needle.isPrefixOf (c :: rest) || hasSubstr needle rest

/-- One line matches the source regular expression
^name.* \((default|installed)\)$ exactly when name starts the line and,
after it, the line ends in the literal text " (default)" or " (installed)";
the dot-star in between absorbs the rest. -/
def lineMatchesComp (name line : List Char) : Bool :=
  name.isPrefixOf line &&
    (" (default)".toList.isSuffixOf (line.drop name.length) ||
     " (installed)".toList.isSuffixOf (line.drop name.length))

/-- stdout.search(/^name.* \((default|installed)\)$/m) > -1 of the source:
some line of the output matches. -/
def componentSearch (name stdout : String) : Bool :=
  (splitLines stdout.toList).any (lineMatchesComp name.toList)

/-- The decision of hasNightlyToolchain on a captured stdout:
stdout.indexOf('nightly') > -1. -/
def hasNightlyOut (stdout : String) : Bool :=
  hasSubstr "nightly".toList stdout.toList

/-- The decision of hasRlsComponents on a captured stdout: false as soon as
one of the three searches fails, true otherwise, mirroring the source
conditional. -/
def hasRlsComponentsOut (stdout : String) : Bool :=
  if !componentSearch "rls" stdout || !componentSearch "rust-analysis" stdout
      || !componentSearch "rust-src" stdout then
    false
  else
    true

/-- Command line run by hasNightlyToolchain. -/
def toolchainListCmd : String := "rustup toolchain list"

/-- Command line run by rustupUpdate. -/
def updateCmd : String := "rustup update"

/-- Command line run by tryToInstallNightlyToolchain. -/
def toolchainInstallCmd : String := "rustup toolchain install nightly"

/-- Command line run by hasRlsComponents. -/
def componentListCmd : String := "rustup component list --toolchain nightly"

/-- Command line run by the tryFn closure of installRls for one component. -/
def componentAddCmd (component : String) : String :=
  "rustup component add " ++ component ++ " --toolchain nightly"

/-- hasNightlyToolchain: run the toolchain list command; on success decide by
substring; on failure show the rustup diagnostic and rethrow the error. -/
def hasNightlyToolchain (w : World) : Except JsError Bool × List Event :=
  match w.exec toolchainListCmd with
  | .ok out =>
    (.ok (hasNightlyOut out.stdout), [.execCmd toolchainListCmd])
  | .error e =>
    (.error (.ofExec e),
     [.execCmd toolchainListCmd,
      .showError "Rustup not available. Install from https://www.rustup.rs/"])

/-- tryToInstallNightlyToolchain: spinner around the toolchain install
command; on failure show a diagnostic, stop the spinner and rethrow. -/
def tryToInstallNightlyToolchain (w : World) : Except JsError Unit × List Event :=
  match w.exec toolchainInstallCmd with
  | .ok _ =>
    (.ok (),
     [.spinnerStart "Installing nightly toolchain...",
      .execCmd toolchainInstallCmd,
      .spinnerStop "Nightly toolchain installed successfully"])
  | .error e =>
    (.error (.ofExec e),
     [.spinnerStart "Installing nightly toolchain...",
      .execCmd toolchainInstallCmd,
      .showError "Could not install nightly toolchain",
      .spinnerStop "Could not install nightly toolchain"])

/-- checkForNightly: return when the probe answers present; otherwise offer
the install, run it on a Yes click, and throw a bare Error on anything
else. A probe rejection propagates. -/
def checkForNightly (w : World) : Except JsError Unit × List Event :=
  match hasNightlyToolchain w with
  | (.error e, t) => (.error e, t)
  | (.ok true, t) => (.ok (), t)
  | (.ok false, t) =>
    let t' := t ++ [.showInfo "Nightly toolchain not installed. Install?"]
    if w.prompt "Nightly toolchain not installed. Install?" = some "Yes" then
      match tryToInstallNightlyToolchain w with
      | (r, t2) => (r, t' ++ t2)
    else
      (.error .generic, t')

/-- hasRlsComponents: run the component list command scoped to nightly; on
success decide by the three line searches; on failure show the rustup
diagnostic and rethrow. -/
def hasRlsComponents (w : World) : Except JsError Bool × List Event :=
  match w.exec componentListCmd with
  | .ok out =>
    (.ok (hasRlsComponentsOut out.stdout), [.execCmd componentListCmd])
  | .error e =>
    (.error (.ofExec e),
     [.execCmd componentListCmd,
      .showError "Unexpected error initialising RLS - error running rustup"])

/-- The tryFn closure of installRls: add one component; on failure show a
diagnostic naming the component and return an Error carrying its name. -/
def tryFn (w : World) (component : String) : Option JsError × List Event :=
  match w.exec (componentAddCmd component) with
  | .ok _ => (none, [.execCmd (componentAddCmd component)])
  | .error _ =>
    (some (.msg ("installing " ++ component ++ " failed")),
     [.execCmd (componentAddCmd component),
      .showError ("Could not install RLS component (" ++ component ++ ")")])

/-- installRls: spinner around the sequential component adds, in the source
order rust-analysis, rust-src, rls, stopping and throwing at the first
returned error. -/
def installRls (w : World) : Except JsError Unit × List Event :=
  match tryFn w "rust-analysis" with
  | (some e, t1) =>
    (.error e,
     Event.spinnerStart "Installing RLS components" :: t1
       ++ [.spinnerStop "Could not install RLS"])
  | (none, t1) =>
    match tryFn w "rust-src" with
    | (some e, t2) =>
      (.error e,
       Event.spinnerStart "Installing RLS components" :: t1 ++ t2
         ++ [.spinnerStop "Could not install RLS"])
    | (none, t2) =>
      match tryFn w "rls" with
      | (some e, t3) =>
        (.error e,
         Event.spinnerStart "Installing RLS components" :: t1 ++ t2 ++ t3
           ++ [.spinnerStop "Could not install RLS"])
      | (none, t3) =>
        (.ok (),
         Event.spinnerStart "Installing RLS components" :: t1 ++ t2 ++ t3
           ++ [.spinnerStop "RLS components installed successfully"])

/-- checkForRls: return when the component probe answers present; otherwise
offer the install, run it on a Yes click, and throw a bare Error on
anything else. A probe rejection propagates. -/
def checkForRls (w : World) : Except JsError Unit × List Event :=
  match hasRlsComponents w with
  | (.error e, t) => (.error e, t)
  | (.ok true, t) => (.ok (), t)
  | (.ok false, t) =>
    let t' := t ++ [.showInfo "RLS not installed. Install?"]
    if w.prompt "RLS not installed. Install?" = some "Yes" then
      match installRls w with
      | (r, t2) => (r, t' ++ t2)
    else
      (.error .generic, t')

/-- rustupUpdate: spinner around the update command; both command outcomes
resolve, a failure only changes the stop message. -/
def rustupUpdate (w : World) : Except JsError Unit × List Event :=
  match w.exec updateCmd with
  | .ok out =>
    if hasSubstr "unchanged".toList out.stdout.toList then
      (.ok (),
       [.spinnerStart "Updating RLS...", .execCmd updateCmd,
        .spinnerStop "Up to date."])
    else
      (.ok (),
       [.spinnerStart "Updating RLS...", .execCmd updateCmd,
        .spinnerStop "Up to date. Restart extension for changes to take effect."])
  | .error _ =>
    (.ok (),
     [.spinnerStart "Updating RLS...", .execCmd updateCmd,
      .spinnerStop "An error occurred whilst trying to update."])

/-- runRlsViaRustup: checkForNightly().then(checkForRls).then(spawn rls),
rejections short-circuiting the chain. -/
def runRlsViaRustup (env : Env) (w : World) : Except JsError Spawned × List Event :=
  match checkForNightly w with
  | (.error e, t) => (.error e, t)
  | (.ok _, t) =>
    match checkForRls w with
    | (.error e, t2) => (.error e, t ++ t2)
    | (.ok _, t2) =>
      (.ok ⟨"rustup", ["run", "nightly", "rls"], env⟩,
       t ++ t2 ++ [.spawned "rustup" ["run", "nightly", "rls"] env])

/-- Whether an event is the execution of an external command. -/
def isExecEv : Event → Bool
  | .execCmd _ => true
  | _ => false

/-- The subsequence of command executions of a trace, in order. -/
def execEventsOf (t : List Event) : List Event :=
  t.filter isExecEv

/-- How many times a trace spawns the dependent server process. -/
def countSpawnEv (t : List Event) : Nat :=
  t.countP fun ev => match ev with | .spawned _ _ _ => true | _ => false

/-- How many times a trace runs the component list probe command. -/
def countCompProbe (t : List Event) : Nat :=
  t.countP fun ev => match ev with
    | .execCmd c => c == componentListCmd
    | _ => false

/-- How many times a trace starts the spinner. -/
def countStarts (t : List Event) : Nat :=
  t.countP fun ev => match ev with | .spinnerStart _ => true | _ => false

/-- How many times a trace stops the spinner. -/
def countStops (t : List Event) : Nat :=
  t.countP fun ev => match ev with | .spinnerStop _ => true | _ => false

/-- Whether a promise resolved rather than rejected. -/
def isOkE {α : Type} : Except JsError α → Bool
  | .ok _ => true
  | .error _ => false

/-- Whether the command runner succeeded. -/
def execOk : Except ExecError CmdOutput → Bool
  | .ok _ => true
  | .error _ => false

/-- The error a rejected promise carries, if any. -/
def errOf {α : Type} : Except JsError α → Option JsError
  | .ok _ => none
  | .error e => some e

/-- Modelled from the claim wording of C2: a line matches the pattern
^name.*\((default|installed)\)$ as written there, with no space required
between the dot-star and the parenthesised state. -/
def specLineMatchesComp (name line : List Char) : Bool :=
  name.isPrefixOf line &&
    ("(default)".toList.isSuffixOf (line.drop name.length) ||
     "(installed)".toList.isSuffixOf (line.drop name.length))

/-- Modelled from the claim wording of C2: present exactly when every one of
the three identifiers has a line matching the claimed pattern. -/
def specHasRlsComponents (stdout : String) : Bool :=
  ["rls", "rust-analysis", "rust-src"].all fun n =>
    (splitLines stdout.toList).any (specLineMatchesComp n.toList)

/-- Toolchain list output with a nightly entry (Scenario A of the spec). -/
def nightlyListOut : String := "stable-x86_64\nnightly-x86_64 (default)\n"

/-- Toolchain list output with no nightly entry (Scenario B of the spec). -/
def stableOnlyOut : String := "stable-x86_64 (default)\n"

/-- Component list output with all three components installed. -/
def componentsOut : String :=
  "rls (default)\nrust-analysis (installed)\nrust-src (installed)\n"

/-- Component list output on which the claimed pattern of C2 and the source
regular expression disagree: the rls line has no space before the state. -/
def ceCompOut : String :=
  "rls(default)\nrust-analysis (default)\nrust-src (default)"

/-- A sample caller-supplied process environment. -/
def envSample : Env := [("PATH", "/usr/bin"), ("RUST_LOG", "rls")]

/-- A world where every prerequisite is already present. -/
def wGood : World where
  exec := fun c =>
    if c = toolchainListCmd then .ok ⟨nightlyListOut, ""⟩
    else if c = componentListCmd then .ok ⟨componentsOut, ""⟩
    else .ok ⟨"", ""⟩
  prompt := fun _ => none

/-- A world with no nightly toolchain where every prompt is dismissed. -/
def wDecline : World where
  exec := fun c =>
    if c = toolchainListCmd then .ok ⟨stableOnlyOut, ""⟩
    else .ok ⟨"", ""⟩
  prompt := fun _ => none

/-- A world where every external command fails. -/
def wBoom : World where
  exec := fun _ => .error ⟨"exec failed"⟩
  prompt := fun _ => none

/-- A world where the update command reports an unchanged toolchain. -/
def wUnchanged : World where
  exec := fun _ => .ok ⟨"toolchain nightly-x86_64 unchanged", ""⟩
  prompt := fun _ => none

/-- Bridging lemma: Boolean prefix test as an existential decomposition. -/
lemma prefixOf_iff (l₁ l₂ : List Char) :
    l₁.isPrefixOf l₂ = true ↔ ∃ t, l₂ = l₁ ++ t := by
  rw [ List.isPrefixOf_iff_prefix]
  constructor
  · intro h
    rw [List.prefix_iff_eq_append] at h
    exact ⟨List.drop l₁.length l₂, h.symm⟩
  · rintro ⟨t, rfl⟩
    exact List.prefix_append l₁ t

/-- Bridging lemma: Boolean suffix test as an existential decomposition. -/
lemma suffixOf_iff (l₁ l₂ : List Char) :
    l₁.isSuffixOf l₂ = true ↔ ∃ t, l₂ = t ++ l₁ := by
  rw [List.isSuffixOf_iff_suffix]
  constructor
  · intro h
    rw [List.suffix_iff_eq_append] at h
    exact ⟨List.take (l₂.length - l₁.length) l₂, h.symm⟩
  · rintro ⟨t, rfl⟩
    exact List.suffix_append t l₁

/-- Bridging lemma: the substring test holds exactly when the needle occurs
between two contexts. -/
lemma hasSubstr_iff (n h : List Char) :
    hasSubstr n h = true ↔ ∃ pre post, h = pre ++ n ++ post := by
  induction h with
  | nil =>
    simp only [hasSubstr, List.isEmpty_iff]
    constructor
    · rintro rfl
      exact ⟨[], [], rfl⟩
    · rintro ⟨pre, post, hp⟩
      rcases List.append_eq_nil.mp (List.append_eq_nil.mp hp.symm).1 with ⟨-, h2⟩
      exact h2
  | cons c rest ih =>
    simp only [hasSubstr, Bool.or_eq_true, ih, prefixOf_iff]
    constructor
    · rintro (⟨t, ht⟩ | ⟨pre, post, hp⟩)
      · exact ⟨[], t, by simpa using ht⟩
      · exact ⟨c :: pre, post, by simp [hp]⟩
    · rintro ⟨pre, post, hp⟩
      cases pre with
      | nil =>
        exact .inl ⟨post, by simpa using hp⟩
      | cons d pres =>
        have h1 : c = d ∧ rest = pres ++ n ++ post := by
          simpa using hp
        exact .inr ⟨pres, post, h1.2⟩

/-- Bridging lemma: a line matches the embedded source pattern exactly when
the component name starts it and a space plus parenthesised installed state
ends it. -/
lemma lineMatchesComp_iff (name line : List Char) :
    lineMatchesComp name line = true ↔
      ∃ mid, line = name ++ mid ++ " (default)".toList ∨
        line = name ++ mid ++ " (installed)".toList := by
  unfold lineMatchesComp
  rw [Bool.and_eq_true, Bool.or_eq_true, prefixOf_iff, suffixOf_iff, suffixOf_iff]
  constructor
  · rintro ⟨⟨t, rfl⟩, hsfx⟩
    rw [List.drop_left] at hsfx
    rcases hsfx with ⟨mid, rfl⟩ | ⟨mid, rfl⟩
    · exact ⟨mid, .inl (by simp)⟩
    · exact ⟨mid, .inr (by simp)⟩
  · rintro ⟨mid, rfl | rfl⟩
    · refine ⟨⟨mid ++ " (default)".toList, by simp⟩, ?_⟩
      rw [List.append_assoc, List.drop_left]
      exact .inl ⟨mid, rfl⟩
    · refine ⟨⟨mid ++ " (installed)".toList, by simp⟩, ?_⟩
      rw [List.append_assoc, List.drop_left]
      exact .inr ⟨mid, rfl⟩

/-- The source conditional of hasRlsComponents is the conjunction of the
three line searches. -/
lemma hasRlsComponentsOut_eq (s : String) :
    hasRlsComponentsOut s =
      (componentSearch "rls" s && componentSearch "rust-analysis" s &&
        componentSearch "rust-src" s) := by
  unfold hasRlsComponentsOut
  cases h1 : componentSearch "rls" s <;>
    cases h2 : componentSearch "rust-analysis" s <;>
      cases h3 : componentSearch "rust-src" s <;> simp

/-- One multiline search succeeds exactly when some line decomposes as the
component name, arbitrary middle text, and a parenthesised installed state
preceded by a space. -/
lemma componentSearch_iff (n s : String) :
    componentSearch n s = true ↔
      ∃ line ∈ splitLines s.toList, ∃ mid,
        line = n.toList ++ mid ++ " (default)".toList ∨
        line = n.toList ++ mid ++ " (installed)".toList := by
  unfold componentSearch
  rw [List.any_eq_true]
  constructor
  · rintro ⟨line, hm, hmat⟩
    exact ⟨line, hm, (lineMatchesComp_iff _ _).mp hmat⟩
  · rintro ⟨line, hm, hmat⟩
    exact ⟨line, hm, (lineMatchesComp_iff _ _).mpr hmat⟩

/-- C3: for every command output string, the toolchain probe returns present
exactly when the output contains the exact substring "nightly", and absent
when it does not. -/
theorem hasNightlyToolchain_present_iff (w : World) (out : CmdOutput)
    (h : w.exec toolchainListCmd = .ok out) :
    ((hasNightlyToolchain w).1 = .ok true ↔
      ∃ pre post, out.stdout.toList = pre ++ "nightly".toList ++ post) ∧
    ((hasNightlyToolchain w).1 = .ok false ↔
      ¬∃ pre post, out.stdout.toList = pre ++ "nightly".toList ++ post) := by
  have hrun : hasNightlyToolchain w =
      (.ok (hasNightlyOut out.stdout), [.execCmd toolchainListCmd]) := by
    simp [hasNightlyToolchain, h]
  rw [hrun]
  simp only [hasNightlyOut, Except.ok.injEq]
  constructor
  · exact hasSubstr_iff _ _
  · rw [Bool.eq_false_iff]
    exact not_congr (hasSubstr_iff _ _)

/-- C3 witness: in the world of Scenario A the probe answers present. -/
theorem hasNightlyToolchain_present_iff_witness :
    (hasNightlyToolchain wGood).1 = .ok true :=
  ((hasNightlyToolchain_present_iff wGood ⟨nightlyListOut, ""⟩ rfl).1).mpr
    ⟨"stable-x86_64\n".toList, "-x86_64 (default)\n".toList, by decide⟩

/-- C2 counterexample: on an output whose rls line has no space before the
parenthesised state, the pattern written in the claim matches all three
identifiers, yet the probe of the source answers absent, because the source
regular expression requires a space before the opening parenthesis. -/
theorem specPattern_vs_source_counterexample :
    specHasRlsComponents ceCompOut = true ∧ hasRlsComponentsOut ceCompOut = false :=
  ⟨by decide, by decide⟩

/-- C2 (amended): the component probe answers present exactly when, for each
of the three required identifiers, some line of the output decomposes as
the identifier, arbitrary text, then a space and (default) or (installed)
at the end of the line, which is the source pattern
^name.* \((default|installed)\)$. -/
theorem hasRlsComponentsOut_present_iff (s : String) :
    hasRlsComponentsOut s = true ↔
      ∀ name ∈ (["rls", "rust-analysis", "rust-src"] : List String),
        ∃ line ∈ splitLines s.toList, ∃ mid,
          line = name.toList ++ mid ++ " (default)".toList ∨
          line = name.toList ++ mid ++ " (installed)".toList := by
  rw [hasRlsComponentsOut_eq]
  simp only [Bool.and_eq_true, componentSearch_iff]
  constructor
  · rintro ⟨⟨h1, h2⟩, h3⟩ name hname
    simp only [List.mem_cons, List.mem_singleton, List.not_mem_nil, or_false] at hname
    rcases hname with rfl | rfl | rfl
    · exact h1
    · exact h2
    · exact h3
  · intro hall
    exact ⟨⟨hall "rls" (by simp), hall "rust-analysis" (by simp)⟩,
      hall "rust-src" (by simp)⟩

/-- C2 witness: the amended characterization evaluated on a fully installed
component listing. -/
theorem hasRlsComponentsOut_present_iff_witness :
    hasRlsComponentsOut componentsOut = true ∧
    ∀ name ∈ (["rls", "rust-analysis", "rust-src"] : List String),
      ∃ line ∈ splitLines componentsOut.toList, ∃ mid,
        line = name.toList ++ mid ++ " (default)".toList ∨
        line = name.toList ++ mid ++ " (installed)".toList :=
  ⟨by decide, (hasRlsComponentsOut_present_iff componentsOut).mp (by decide)⟩

/-- C4: installRls attempts the component installs in the order
rust-analysis, rust-src, rls; the first failing install determines the
thrown error and no later component is attempted; when all succeed the run
resolves after attempting exactly the three in order. -/
theorem installRls_order_and_short_circuit (w : World) :
    execEventsOf (installRls w).2 =
      (if execOk (w.exec (componentAddCmd "rust-analysis")) then
        if execOk (w.exec (componentAddCmd "rust-src")) then
          [Event.execCmd (componentAddCmd "rust-analysis"),
           Event.execCmd (componentAddCmd "rust-src"),
           Event.execCmd (componentAddCmd "rls")]
        else
          [Event.execCmd (componentAddCmd "rust-analysis"),
           Event.execCmd (componentAddCmd "rust-src")]
      else [Event.execCmd (componentAddCmd "rust-analysis")]) ∧
    (installRls w).1 =
      (if execOk (w.exec (componentAddCmd "rust-analysis")) then
        if execOk (w.exec (componentAddCmd "rust-src")) then
          if execOk (w.exec (componentAddCmd "rls")) then .ok ()
          else .error (.msg "installing rls failed")
        else .error (.msg "installing rust-src failed")
      else .error (.msg "installing rust-analysis failed")) := by
  rcases h1 : w.exec (componentAddCmd "rust-analysis") with e1 | o1 <;>
    rcases h2 : w.exec (componentAddCmd "rust-src") with e2 | o2 <;>
      rcases h3 : w.exec (componentAddCmd "rls") with e3 | o3 <;>
        simp [installRls, tryFn, execEventsOf, isExecEv, execOk, h1, h2, h3]

/-- C5: when the toolchain probe answers absent and the consent prompt
resolves to anything but the affirmative label, the bootstrap rejects with
the generic cancellation error, and the only command ever executed is the
toolchain list: neither the component probe nor any install command runs. -/
theorem runRlsViaRustup_decline_aborts (env : Env) (w : World) (out : CmdOutput)
    (h1 : w.exec toolchainListCmd = .ok out)
    (h2 : hasNightlyOut out.stdout = false)
    (h3 : w.prompt "Nightly toolchain not installed. Install?" ≠ some "Yes") :
    (runRlsViaRustup env w).1 = .error .generic ∧
    execEventsOf (runRlsViaRustup env w).2 = [.execCmd toolchainListCmd] := by
  have hn : checkForNightly w =
      (.error .generic,
       [.execCmd toolchainListCmd,
        .showInfo "Nightly toolchain not installed. Install?"]) := by
    simp [checkForNightly, hasNightlyToolchain, h1, h2, h3]
  constructor
  · simp [runRlsViaRustup, hn]
  · simp [runRlsViaRustup, hn, execEventsOf, isExecEv]

/-- C5 witness: Scenario E with a dismissed prompt. -/
theorem runRlsViaRustup_decline_aborts_witness :
    (runRlsViaRustup envSample wDecline).1 = .error .generic ∧
    execEventsOf (runRlsViaRustup envSample wDecline).2 =
      [.execCmd toolchainListCmd] :=
  runRlsViaRustup_decline_aborts envSample wDecline ⟨stableOnlyOut, ""⟩ rfl
    (by decide) (by decide)

/-- C6: when the command runner fails during either probe, the probe
rejects with the runner failure wrapped as an error, never answering
absent, and a diagnostic message box is surfaced before the rejection. -/
theorem probes_propagate_runner_failure (w1 w2 : World) (e1 e2 : ExecError)
    (h1 : w1.exec toolchainListCmd = .error e1)
    (h2 : w2.exec componentListCmd = .error e2) :
    hasNightlyToolchain w1 =
      (.error (.ofExec e1),
       [.execCmd toolchainListCmd,
        .showError "Rustup not available. Install from https://www.rustup.rs/"]) ∧
    hasRlsComponents w2 =
      (.error (.ofExec e2),
       [.execCmd componentListCmd,
        .showError "Unexpected error initialising RLS - error running rustup"]) := by
  constructor
  · simp [hasNightlyToolchain, h1]
  · simp [hasRlsComponents, h2]

/-- C6 witness: both probes against a broken command runner. -/
theorem probes_propagate_runner_failure_witness :
    hasNightlyToolchain wBoom =
      (.error (.ofExec ⟨"exec failed"⟩),
       [.execCmd toolchainListCmd,
        .showError "Rustup not available. Install from https://www.rustup.rs/"]) ∧
    hasRlsComponents wBoom =
      (.error (.ofExec ⟨"exec failed"⟩),
       [.execCmd componentListCmd,
        .showError "Unexpected error initialising RLS - error running rustup"]) :=
  probes_propagate_runner_failure wBoom wBoom ⟨"exec failed"⟩ ⟨"exec failed"⟩ rfl rfl

/-- C7 counterexample: when the toolchain install command fails, the module
rethrows the command-runner error unchanged, and the propagated value is
identical to the one a mere toolchain probe failure produces; the
propagated error therefore does not carry that the toolchain install was
the failing subject, refuting the claim at this input. -/
theorem toolchain_install_error_lacks_subject :
    (tryToInstallNightlyToolchain wBoom).1 = .error (.ofExec ⟨"exec failed"⟩) ∧
    (hasNightlyToolchain wBoom).1 = .error (.ofExec ⟨"exec failed"⟩) ∧
    errOf (tryToInstallNightlyToolchain wBoom).1 =
      errOf (hasNightlyToolchain wBoom).1 :=
  ⟨rfl, rfl, rfl⟩

/-- C7 (amended): a failed component install propagates an error carrying
the failing component name, and every installRls failure carries one of the
three component names; a failed toolchain install instead rethrows the
underlying command-runner error unchanged, the toolchain subject being
identified only by the surfaced diagnostic message. -/
theorem install_error_subjects :
    (∀ w c e, w.exec (componentAddCmd c) = .error e →
      (tryFn w c).1 = some (.msg ("installing " ++ c ++ " failed"))) ∧
    (∀ w, (installRls w).1 = .ok () ∨
      ∃ c, c ∈ (["rust-analysis", "rust-src", "rls"] : List String) ∧
        (installRls w).1 = .error (.msg ("installing " ++ c ++ " failed"))) ∧
    (∀ w e, w.exec toolchainInstallCmd = .error e →
      (tryToInstallNightlyToolchain w).1 = .error (.ofExec e) ∧
      Event.showError "Could not install nightly toolchain" ∈
        (tryToInstallNightlyToolchain w).2) := by
  refine ⟨?_, ?_, ?_⟩
  · intro w c e h
    simp [tryFn, h]
  · intro w
    rcases h1 : w.exec (componentAddCmd "rust-analysis") with e1 | o1
    · exact .inr ⟨"rust-analysis", by simp, by simp [installRls, tryFn, h1]⟩
    · rcases h2 : w.exec (componentAddCmd "rust-src") with e2 | o2
      · exact .inr ⟨"rust-src", by simp, by simp [installRls, tryFn, h1, h2]⟩
      · rcases h3 : w.exec (componentAddCmd "rls") with e3 | o3
        · exact .inr ⟨"rls", by simp, by simp [installRls, tryFn, h1, h2, h3]⟩
        · exact .inl (by simp [installRls, tryFn, h1, h2, h3])
  · intro w e h
    constructor
    · simp [tryToInstallNightlyToolchain, h]
    · simp [tryToInstallNightlyToolchain, h]

/-- C7 witness: the amended statements applied against a broken runner. -/
theorem install_error_subjects_witness :
    (tryFn wBoom "rls").1 = some (.msg ("installing " ++ "rls" ++ " failed")) ∧
    (tryToInstallNightlyToolchain wBoom).1 = .error (.ofExec ⟨"exec failed"⟩) :=
  ⟨install_error_subjects.1 wBoom "rls" ⟨"exec failed"⟩ rfl,
   (install_error_subjects.2.2 wBoom ⟨"exec failed"⟩ rfl).1⟩

/-- C8: the maintenance update never rejects; an output containing
"unchanged" reports the up-to-date message, and a command failure is
swallowed into a status message instead of being rethrown. -/
theorem rustupUpdate_swallows_errors (w : World) :
    (rustupUpdate w).1 = .ok () ∧
    (∀ out, w.exec updateCmd = .ok out →
      hasSubstr "unchanged".toList out.stdout.toList = true →
      Event.spinnerStop "Up to date." ∈ (rustupUpdate w).2) ∧
    (∀ e, w.exec updateCmd = .error e →
      Event.spinnerStop "An error occurred whilst trying to update." ∈
        (rustupUpdate w).2) := by
  refine ⟨?_, ?_, ?_⟩
  · rcases h : w.exec updateCmd with e | o
    · simp [rustupUpdate, h]
    · simp only [rustupUpdate, h]
      split <;> rfl
  · intro out h hu
    simp only [rustupUpdate, h, hu]
    simp
  · intro e h
    simp [rustupUpdate, h]

/-- C8 witness: Scenario D output and a broken runner. -/
theorem rustupUpdate_swallows_errors_witness :
    (rustupUpdate wUnchanged).1 = .ok () ∧
    Event.spinnerStop "Up to date." ∈ (rustupUpdate wUnchanged).2 ∧
    Event.spinnerStop "An error occurred whilst trying to update." ∈
      (rustupUpdate wBoom).2 :=
  ⟨(rustupUpdate_swallows_errors wUnchanged).1,
   (rustupUpdate_swallows_errors wUnchanged).2.1
     ⟨"toolchain nightly-x86_64 unchanged", ""⟩ rfl (by decide),
   (rustupUpdate_swallows_errors wBoom).2.2 ⟨"exec failed"⟩ rfl⟩

/-- C9: whenever the bootstrap resolves, the spawned handle runs rls via
rustup with exactly the caller-supplied environment, unchanged, and the
spawn event of the trace carries that same environment. -/
theorem runRlsViaRustup_env_passthrough (env : Env) (w : World) (s : Spawned)
    (h : (runRlsViaRustup env w).1 = .ok s) :
    s = ⟨"rustup", ["run", "nightly", "rls"], env⟩ ∧ s.env = env ∧
    Event.spawned "rustup" ["run", "nightly", "rls"] env ∈
      (runRlsViaRustup env w).2 := by
  rcases hn : checkForNightly w with ⟨rn, tn⟩
  rcases hr : checkForRls w with ⟨rr, tr⟩
  rcases rn with en | un
  · simp [runRlsViaRustup, hn] at h
  · rcases rr with er | ur
    · simp [runRlsViaRustup, hn, hr] at h
    · have hs : s = ⟨"rustup", ["run", "nightly", "rls"], env⟩ := by
        simp only [runRlsViaRustup, hn, hr, Except.ok.injEq] at h
        exact h.symm
      refine ⟨hs, by rw [hs], ?_⟩
      simp [runRlsViaRustup, hn, hr]

/-- C9 witness: the all-present world spawns with the sample environment. -/
theorem runRlsViaRustup_env_passthrough_witness :
    Event.spawned "rustup" ["run", "nightly", "rls"] envSample ∈
      (runRlsViaRustup envSample wGood).2 :=
  (runRlsViaRustup_env_passthrough envSample wGood
    ⟨"rustup", ["run", "nightly", "rls"], envSample⟩ rfl).2.2

/-- C10: each spinner-using operation starts the spinner exactly once and
stops it exactly once on every path, success or failure. -/
theorem spinner_started_and_stopped_once (w : World) :
    countStarts (rustupUpdate w).2 = 1 ∧ countStops (rustupUpdate w).2 = 1 ∧
    countStarts (tryToInstallNightlyToolchain w).2 = 1 ∧
    countStops (tryToInstallNightlyToolchain w).2 = 1 ∧
    countStarts (installRls w).2 = 1 ∧ countStops (installRls w).2 = 1 := by
  refine ⟨?_, ?_, ?_, ?_, ?_, ?_⟩
  · rcases h : w.exec updateCmd with e | o
    · simp only [rustupUpdate, h]; decide
    · simp only [rustupUpdate, h]; split <;> decide
  · rcases h : w.exec updateCmd with e | o
    · simp only [rustupUpdate, h]; decide
    · simp only [rustupUpdate, h]; split <;> decide
  · rcases h : w.exec toolchainInstallCmd with e | o <;>
      simp only [tryToInstallNightlyToolchain, h] <;> decide
  · rcases h : w.exec toolchainInstallCmd with e | o <;>
      simp only [tryToInstallNightlyToolchain, h] <;> decide
  · rcases h1 : w.exec (componentAddCmd "rust-analysis") with e1 | o1 <;>
      rcases h2 : w.exec (componentAddCmd "rust-src") with e2 | o2 <;>
        rcases h3 : w.exec (componentAddCmd "rls") with e3 | o3 <;>
          simp only [installRls, tryFn, h1, h2, h3] <;> decide
  · rcases h1 : w.exec (componentAddCmd "rust-analysis") with e1 | o1 <;>
      rcases h2 : w.exec (componentAddCmd "rust-src") with e2 | o2 <;>
        rcases h3 : w.exec (componentAddCmd "rls") with e3 | o3 <;>
          simp only [installRls, tryFn, h1, h2, h3] <;> decide

/-- Spawn events distribute over trace concatenation. -/
lemma countSpawnEv_append (t1 t2 : List Event) :
    countSpawnEv (t1 ++ t2) = countSpawnEv t1 + countSpawnEv t2 :=
  List.countP_append _ _ _

/-- Component probe events distribute over trace concatenation. -/
lemma countCompProbe_append (t1 t2 : List Event) :
    countCompProbe (t1 ++ t2) = countCompProbe t1 + countCompProbe t2 :=
  List.countP_append _ _ _

/-- A lone spawn event counts as one spawn. -/
lemma countSpawnEv_spawn_singleton (a : String) (b : List String) (c : Env) :
    countSpawnEv [Event.spawned a b c] = 1 := rfl

/-- A lone spawn event is not a component probe. -/
lemma countCompProbe_spawn_singleton (a : String) (b : List String) (c : Env) :
    countCompProbe [Event.spawned a b c] = 0 := rfl

/-- The toolchain step never spawns the dependent process. -/
lemma countSpawnEv_checkForNightly (w : World) :
    countSpawnEv (checkForNightly w).2 = 0 := by
  rcases h1 : w.exec toolchainListCmd with e1 | o1
  · simp only [checkForNightly, hasNightlyToolchain, h1]
    decide
  · cases h2 : hasNightlyOut o1.stdout
    · by_cases h3 : w.prompt "Nightly toolchain not installed. Install?" = some "Yes"
      · rcases h4 : w.exec toolchainInstallCmd with e4 | o4 <;>
          simp only [checkForNightly, hasNightlyToolchain, h1, h2,
            tryToInstallNightlyToolchain, h4, if_pos h3] <;> decide
      · simp only [checkForNightly, hasNightlyToolchain, h1, h2, if_neg h3]
        decide
    · simp only [checkForNightly, hasNightlyToolchain, h1, h2]
      decide

/-- The toolchain step never runs the component list probe. -/
lemma countCompProbe_checkForNightly (w : World) :
    countCompProbe (checkForNightly w).2 = 0 := by
  rcases h1 : w.exec toolchainListCmd with e1 | o1
  · simp only [checkForNightly, hasNightlyToolchain, h1]
    decide
  · cases h2 : hasNightlyOut o1.stdout
    · by_cases h3 : w.prompt "Nightly toolchain not installed. Install?" = some "Yes"
      · rcases h4 : w.exec toolchainInstallCmd with e4 | o4 <;>
          simp only [checkForNightly, hasNightlyToolchain, h1, h2,
            tryToInstallNightlyToolchain, h4, if_pos h3] <;> decide
      · simp only [checkForNightly, hasNightlyToolchain, h1, h2, if_neg h3]
        decide
    · simp only [checkForNightly, hasNightlyToolchain, h1, h2]
      decide

/-- The component step never spawns the dependent process. -/
lemma countSpawnEv_checkForRls (w : World) :
    countSpawnEv (checkForRls w).2 = 0 := by
  rcases h1 : w.exec componentListCmd with e1 | o1
  · simp only [checkForRls, hasRlsComponents, h1]
    decide
  · cases h2 : hasRlsComponentsOut o1.stdout
    · by_cases h3 : w.prompt "RLS not installed. Install?" = some "Yes"
      · rcases h4 : w.exec (componentAddCmd "rust-analysis") with e4 | o4 <;>
          rcases h5 : w.exec (componentAddCmd "rust-src") with e5 | o5 <;>
            rcases h6 : w.exec (componentAddCmd "rls") with e6 | o6 <;>
              simp only [checkForRls, hasRlsComponents, h1, h2, if_pos h3,
                installRls, tryFn, h4, h5, h6] <;> decide
      · simp only [checkForRls, hasRlsComponents, h1, h2, if_neg h3]
        decide
    · simp only [checkForRls, hasRlsComponents, h1, h2]
      decide

/-- The component step runs the component list probe exactly once. -/
lemma countCompProbe_checkForRls (w : World) :
    countCompProbe (checkForRls w).2 = 1 := by
  rcases h1 : w.exec componentListCmd with e1 | o1
  · simp only [checkForRls, hasRlsComponents, h1]
    decide
  · cases h2 : hasRlsComponentsOut o1.stdout
    · by_cases h3 : w.prompt "RLS not installed. Install?" = some "Yes"
      · rcases h4 : w.exec (componentAddCmd "rust-analysis") with e4 | o4 <;>
          rcases h5 : w.exec (componentAddCmd "rust-src") with e5 | o5 <;>
            rcases h6 : w.exec (componentAddCmd "rls") with e6 | o6 <;>
              simp only [checkForRls, hasRlsComponents, h1, h2, if_pos h3,
                installRls, tryFn, h4, h5, h6] <;> decide
      · simp only [checkForRls, hasRlsComponents, h1, h2, if_neg h3]
        decide
    · simp only [checkForRls, hasRlsComponents, h1, h2]
      decide

/-- C1: the dependent process is spawned exactly when both the toolchain
step and the component step resolved; the component list probe runs exactly
when the toolchain step resolved and never inside the toolchain step; and
the bootstrap trace begins with the complete toolchain step trace, so the
component probe can only come after the toolchain step has succeeded. -/
theorem bootstrap_gating (env : Env) (w : World) :
    countSpawnEv (runRlsViaRustup env w).2 =
      (if isOkE (checkForNightly w).1 && isOkE (checkForRls w).1 then 1 else 0) ∧
    countCompProbe (runRlsViaRustup env w).2 =
      (if isOkE (checkForNightly w).1 then 1 else 0) ∧
    countCompProbe (checkForNightly w).2 = 0 ∧
    (runRlsViaRustup env w).2.take (checkForNightly w).2.length =
      (checkForNightly w).2 := by
  have hns := countSpawnEv_checkForNightly w
  have hnc := countCompProbe_checkForNightly w
  have hrs := countSpawnEv_checkForRls w
  have hrc := countCompProbe_checkForRls w
  rcases hn : checkForNightly w with ⟨rn, tn⟩
  rcases hr : checkForRls w with ⟨rr, tr⟩
  rw [hn] at hns hnc
  rw [hr] at hrs hrc
  simp only at hns hnc hrs hrc
  rcases rn with en | un
  · refine ⟨?_, ?_, ?_, ?_⟩ <;>
      simp [runRlsViaRustup, hn, isOkE, hns, hnc, List.take_length]
  · rcases rr with er | ur <;> refine ⟨?_, ?_, ?_, ?_⟩ <;>
      simp [runRlsViaRustup, hn, hr, isOkE, countSpawnEv_append,
        countCompProbe_append, countSpawnEv_spawn_singleton,
        countCompProbe_spawn_singleton, hns, hnc, hrs, hrc,
        List.append_assoc, List.take_left, List.take_length]

end RlsVscode
